import Mathlib

/-! # yookassa-widget: the `createPayment` handler

A shallow embedding of `src/main.go`.  The handler is a Go `http.HandlerFunc`;
it is embedded as a function from the static configuration, the behaviour of
the provider transport and the inbound request to the final state of the
`http.ResponseWriter`, the outbound provider call (when one was made) and the
panic that left the handler (when one did).

Conventions of the embedding.

* JSON documents are represented by the value they encode (`Json`), with the
  members of an object in the order in which they are written.  Byte level
  matters (white space, string escapes, number formatting) are not modelled.
* `float64` is represented by `Float64`: a rational for a finite value, and the
  three special values.  Rounding and the sign of zero are not modelled; the
  handler only compares an amount with zero and passes it on.
* Calls on values supplied by the environment (reading and closing the request
  body, the transport call, reading and closing the provider's reply) may
  return, fail with an error, or panic.  Library calls on the handler's own
  data (`json.Marshal`, `strconv.Itoa`, the header and writer methods with the
  constant status codes used here) do not panic.
* Logging is not modelled.
-/

namespace YookassaWidget

/-! ## Values -/

/-- A JSON value; object members are kept in document order. -/
inductive Json where
  | null
  | bool (b : Bool)
  | num (q : Rat)
  | str (s : String)
  | arr (items : List Json)
  | obj (members : List (String × Json))

/-- Go `float64`: a finite value (as the rational it denotes) or a special value. -/
inductive Float64 where
  | finite (q : Rat)
  | posInf
  | negInf
  | nan

/-- The Go comparison `x <= 0` on `float64` (false for NaN). -/
def Float64.leZero : Float64 → Bool
  | .finite q => decide (q ≤ 0)
  | .posInf => false
  | .negInf => true
  | .nan => false

/-- The Go comparison `x > 0` on `float64` (false for NaN). -/
def Float64.gtZero : Float64 → Bool
  | .finite q => decide (0 < q)
  | .posInf => true
  | .negInf => false
  | .nan => false

/-- A non-nil value carried by a Go panic, by dynamic type: a string, a value
of an integer type (sized and unsigned ones included), a boolean, a `float64`
or `float32` (given by the decimal text `strconv.FormatFloat` with format `f`
and precision -1 prints for it), a `[]byte` or one of the `template` string
types (given by its text), a `fmt.Stringer` (given by the result of `String`),
an `error` (given by the result of `Error`), or a value of any other type. -/
inductive PanicValue where
  | str (s : String)
  | int (n : Int)
  | bool (b : Bool)
  | float (text : String)
  | bytes (text : String)
  | stringer (text : String)
  | error (msg : String)
  | other (goSyntax : String)

/-- `strconv.Itoa`: the decimal string of an integer. -/
def Itoa (n : Int) : String :=
  if n < 0 then "-" ++ Nat.repr n.natAbs else Nat.repr n.natAbs

/-- `cast.ToString`: strings, integers, booleans, floats, byte slices,
stringers and errors are rendered as text; for a value of any other type
`ToStringE` fails and `ToString` returns the empty string. -/
def castToString : PanicValue → String
  | .str s => s
  | .int n => Itoa n
  | .bool b => if b then "true" else "false"
  | .float text => text
  | .bytes text => text
  | .stringer text => text
  | .error msg => msg
  | .other _ => ""

/-- The result of a call on a value supplied by the environment. -/
inductive Outcome (α : Type) where
  | ok (a : α)
  | err (msg : String)
  | fault (x : PanicValue)

/-! ## Association lists: Go maps and HTTP headers -/

/-- Assignment `m[k] = v`: replaces the entry for `k` or adds one. -/
def assocSet {α : Type} (m : List (String × α)) (k : String) (v : α) : List (String × α) :=
  match m with
  | [] => [(k, v)]
  | (k', v') :: rest => if k' = k then (k, v) :: rest else (k', v') :: assocSet rest k v

/-- Lookup of the entry for `k`. -/
def assocGet {α : Type} (m : List (String × α)) (k : String) : Option α :=
  match m with
  | [] => none
  | (k', v') :: rest => if k' = k then some v' else assocGet rest k

/-- Removal of the entry for `k`. -/
def assocDel {α : Type} (m : List (String × α)) (k : String) : List (String × α) :=
  m.filter (fun kv => !decide (kv.1 = k))

/-- Order of Go strings (`<` compares bytes; on UTF-8 this is the order of
the code points). -/
def keyLess (a b : String) : Bool := decide (a.data < b.data)

/-- Insertion of one entry into a list sorted by key. -/
def insertSorted {α : Type} (k : String) (v : α) : List (String × α) → List (String × α)
  | [] => [(k, v)]
  | (k', v') :: rest =>
    if keyLess k k' then (k, v) :: (k', v') :: rest else (k', v') :: insertSorted k v rest

/-- The entries of a Go map in the order `json.Marshal` writes them: sorted by key. -/
def sortKeys {α : Type} (m : List (String × α)) : List (String × α) :=
  m.foldr (fun kv acc => insertSorted kv.1 kv.2 acc) []

/-- `json.Marshal` of a `map[string]string`. -/
def marshalStringMap (m : List (String × String)) : Json :=
  .obj ((sortKeys m).map (fun kv => (kv.1, Json.str kv.2)))

/-- `json.Marshal` of a `map[string]interface{}` whose values have already been
serialised. -/
def marshalMap (m : List (String × Json)) : Json :=
  .obj (sortKeys m)

/-! ## The data model of `main.go` -/

/-- The package level variables set by `init` from the configuration file. -/
structure Config where
  shopID : String
  secretKey : String
  idempotenceKey : String
  locale : String

/-- Go `Amount`; `Value` carries the JSON tag `amount`. -/
structure Amount where
  Value : Float64
  Currency : String

/-- Go `Confirmation`; the field `Type` is written `Type_`. -/
structure Confirmation where
  Type_ : String
  Locale : String
  ConfirmationToken : String

/-- Go `Recipient`. -/
structure Recipient where
  AccountID : String
  GatewayID : String

/-- Go `PaymentRequest`. -/
structure PaymentRequest where
  Amount : Amount
  Confirmation : Confirmation
  Capture : Bool
  Description : String

/-- Go `PaymentResponse`; `Metadata` is an `interface{}`, nil or a decoded value. -/
structure PaymentResponse where
  ID : String
  Status : String
  Paid : Bool
  Amount : Amount
  Confirmation : Confirmation
  CreatedAt : String
  Description : String
  Metadata : Option Json
  Recipient : Recipient
  Refundable : Bool
  Test : Bool

/-- The zero value of `PaymentResponse` (`var presponse PaymentResponse`). -/
def PaymentResponse.zero : PaymentResponse :=
  { ID := "", Status := "", Paid := false,
    Amount := { Value := .finite 0, Currency := "" },
    Confirmation := { Type_ := "", Locale := "", ConfirmationToken := "" },
    CreatedAt := "", Description := "", Metadata := none,
    Recipient := { AccountID := "", GatewayID := "" },
    Refundable := false, Test := false }

/-- The anonymous struct `body` of `createPayment`. -/
structure Body where
  invoice : Int
  amount : Float64
  currency : String

/-- The zero value allocated by `new(struct { ... })`. -/
def Body.zero : Body := { invoice := 0, amount := .finite 0, currency := "" }

/-! ## `encoding/json`: serialisation -/

/-- `json.Marshal` of a `float64`: NaN and the infinities are unsupported values. -/
def marshalFloat : Float64 → Except String Json
  | .finite q => .ok (.num q)
  | .posInf => .error "json: unsupported value: +Inf"
  | .negInf => .error "json: unsupported value: -Inf"
  | .nan => .error "json: unsupported value: NaN"

/-- `json.Marshal` of an `Amount`, members named by the struct tags. -/
def marshalAmount (a : Amount) : Except String Json :=
  match marshalFloat a.Value with
  | .error e => .error e
  | .ok v => .ok (.obj [("amount", v), ("currency", .str a.Currency)])

/-- `json.Marshal` of a `Confirmation`. -/
def marshalConfirmation (c : Confirmation) : Json :=
  .obj [("type", .str c.Type_), ("locale", .str c.Locale),
        ("confirmation_token", .str c.ConfirmationToken)]

/-- `json.Marshal` of a `Recipient`. -/
def marshalRecipient (r : Recipient) : Json :=
  .obj [("account_id", .str r.AccountID), ("gateway_id", .str r.GatewayID)]

/-- `json.Marshal` of a `PaymentRequest`: members in the order of the fields. -/
def marshalPaymentRequest (q : PaymentRequest) : Except String Json :=
  match marshalAmount q.Amount with
  | .error e => .error e
  | .ok a =>
    .ok (.obj [("amount", a), ("confirmation", marshalConfirmation q.Confirmation),
               ("capture", .bool q.Capture), ("description", .str q.Description)])

/-- `json.Marshal` of a `PaymentResponse`. -/
def marshalPaymentResponse (p : PaymentResponse) : Except String Json :=
  match marshalAmount p.Amount with
  | .error e => .error e
  | .ok a =>
    .ok (.obj [("id", .str p.ID), ("status", .str p.Status), ("paid", .bool p.Paid),
               ("amount", a), ("confirmation", marshalConfirmation p.Confirmation),
               ("created_at", .str p.CreatedAt), ("description", .str p.Description),
               ("metadata", p.Metadata.getD .null),
               ("recipient", marshalRecipient p.Recipient),
               ("refundable", .bool p.Refundable), ("test", .bool p.Test)])

/-! ## `encoding/json`: decoding -/

/-- What a `json.Decoder` finds on a stream supplied by the environment: a
well formed first value, an error before a value is complete (syntax error,
`EOF`, read error), or a panic of the reader. -/
inductive BodyRead where
  | value (j : Json)
  | failure (msg : String)
  | fault (x : PanicValue)

/-- A field of the struct `body` as the decoder sees it: its Go name, the name
in its `json` tag, and the assignment of a decoded value to it. -/
structure Field where
  goName : String
  tag : String
  store : Json → Body → Except String Body

/-- Whether a Go identifier is exported: it starts with an upper case letter. -/
def isExported (name : String) : Bool :=
  match name.data with
  | c :: _ => c.isUpper
  | [] => false

/-- The name of a JSON value's kind in an `UnmarshalTypeError`. -/
def Json.kind : Json → String
  | .null => "null"
  | .bool _ => "bool"
  | .num _ => "number"
  | .str _ => "string"
  | .arr _ => "array"
  | .obj _ => "object"

/-- The text of the `UnmarshalTypeError` for a struct field. -/
def fieldTypeError (j : Json) (tag goType : String) : String :=
  "json: cannot unmarshal " ++ j.kind ++ " into Go struct field ." ++ tag ++ " of type " ++ goType

/-- Assignment to `invoice int`: an integral number in the range of `int`. -/
def storeInvoice (j : Json) (b : Body) : Except String Body :=
  match j with
  | .null => .ok b
  | .num q =>
    if q.den = 1 ∧ -(2 : Int) ^ 63 ≤ q.num ∧ q.num < (2 : Int) ^ 63 then
      .ok { b with invoice := q.num }
    else .error (fieldTypeError j "invoice" "int")
  | _ => .error (fieldTypeError j "invoice" "int")

/-- Assignment to `amount float64`. -/
def storeAmount (j : Json) (b : Body) : Except String Body :=
  match j with
  | .null => .ok b
  | .num q => .ok { b with amount := .finite q }
  | _ => .error (fieldTypeError j "amount" "float64")

/-- Assignment to `currency string`. -/
def storeCurrency (j : Json) (b : Body) : Except String Body :=
  match j with
  | .null => .ok b
  | .str s => .ok { b with currency := s }
  | _ => .error (fieldTypeError j "currency" "string")

/-- The fields of the struct `body`, lines 112 to 116: all three names start
with a lower case letter. -/
def bodyFields : List Field :=
  [ { goName := "invoice", tag := "invoice", store := storeInvoice },
    { goName := "amount", tag := "amount", store := storeAmount },
    { goName := "currency", tag := "currency", store := storeCurrency } ]

/-- The fields `encoding/json` can set: the exported ones. -/
def exportedFields (fs : List Field) : List Field :=
  fs.filter (fun f => isExported f.goName)

/-- The destination of an object member: the field whose tag equals the key,
else one that equals it up to the case of letters. -/
def findField (fs : List Field) (key : String) : Option Field :=
  match fs.find? (fun f => decide (f.tag = key)) with
  | some f => some f
  | none => fs.find? (fun f => decide (f.tag.toLower = key.toLower))

/-- Decoding of the members of an object into the struct: a member with no
destination among the exported fields is skipped. -/
def decodeMembers (fs : List Field) (b : Body) : List (String × Json) → Except String Body
  | [] => .ok b
  | (k, v) :: rest =>
    match findField (exportedFields fs) k with
    | none => decodeMembers fs b rest
    | some f =>
      match f.store v b with
      | .error e => .error e
      | .ok b' => decodeMembers fs b' rest

/-- The text of the `UnmarshalTypeError` for a value that is not an object. -/
def bodyTypeError (j : Json) : String :=
  "json: cannot unmarshal " ++ j.kind ++ " into Go value of type struct \x7b invoice int " ++
  "\"json:\\\"invoice\\\"\"; amount float64 \"json:\\\"amount\\\"\"; currency string " ++
  "\"json:\\\"currency\\\"\" \x7d"

/-- The call `json.NewDecoder(r.Body).Decode(body)` of line 118, `body` a
pointer to the struct. -/
def decodeBody (src : BodyRead) (body : Body) : Outcome Body :=
  match src with
  | .fault x => .fault x
  | .failure msg => .err msg
  | .value j =>
    match j with
    | .null => .ok body
    | .obj members =>
      match decodeMembers bodyFields body members with
      | .ok b => .ok b
      | .error e => .err e
    | _ => .err (bodyTypeError j)

/-- The call `json.NewDecoder(resp.Body).Decode(presponse)` of line 175: the
argument is the struct itself, not a pointer to it.  The decoder reads one
value from the stream and then refuses the destination with an
`InvalidUnmarshalError`; nothing is stored. -/
def decodeNonPointer (src : BodyRead) (_presponse : PaymentResponse) : Outcome PaymentResponse :=
  match src with
  | .fault x => .fault x
  | .failure msg => .err msg
  | .value _ => .err "json: Unmarshal(non-pointer yookassa_widget.PaymentResponse)"

/-! ## `net/http`: the response writer -/

/-- A piece of a response body: a serialised JSON document or a line end. -/
inductive Chunk where
  | json (j : Json)
  | newline

/-- The state of an `http.ResponseWriter`: the header map the handler edits,
the status line once it has been sent, the headers that went out with it, and
the body written so far. -/
structure ResponseWriter where
  header : List (String × String)
  status : Option Nat
  sent : List (String × String)
  body : List Chunk

/-- The writer the server hands to a handler. -/
def ResponseWriter.fresh : ResponseWriter :=
  { header := [], status := none, sent := [], body := [] }

/-- The call `w.Header().Set(k, v)`.  Keys are compared as written: every key
used with a writer in this program is already in canonical form. -/
def ResponseWriter.setHeader (w : ResponseWriter) (k v : String) : ResponseWriter :=
  { w with header := assocSet w.header k v }

/-- The call `w.Header().Del(k)`. -/
def ResponseWriter.delHeader (w : ResponseWriter) (k : String) : ResponseWriter :=
  { w with header := assocDel w.header k }

/-- The call `w.WriteHeader(code)`: the first call sends the status line with
the headers set so far; a later call is superfluous and ignored. -/
def ResponseWriter.WriteHeader (w : ResponseWriter) (code : Nat) : ResponseWriter :=
  match w.status with
  | some _ => w
  | none => { w with status := some code, sent := w.header }

/-- The call `w.Write(data)`: sends status 200 first if no status was sent. -/
def ResponseWriter.Write (w : ResponseWriter) (data : List Chunk) : ResponseWriter :=
  let w' := w.WriteHeader 200
  { w' with body := w'.body ++ data }

/-- The function `http.Error`: drops `Content-Length`, resets `Content-Type` to
plain text, sets `X-Content-Type-Options`, sends the status and prints the
message followed by a line end. -/
def httpError (w : ResponseWriter) (error : Json) (code : Nat) : ResponseWriter :=
  let w1 := w.delHeader "Content-Length"
  let w2 := w1.setHeader "Content-Type" "text/plain; charset=utf-8"
  let w3 := w2.setHeader "X-Content-Type-Options" "nosniff"
  let w4 := w3.WriteHeader code
  w4.Write [.json error, .newline]

/-! ## The handler -/

/-- The function `errorResponse`, lines 189 to 195. -/
def errorResponse (code : Nat) (error : String) (w : ResponseWriter) : ResponseWriter :=
  let response : List (String × String) := []
  let response := assocSet response "status" "failure"
  let response := assocSet response "error" error
  let bytedata := marshalStringMap response
  httpError w bytedata code

/-- The function `finishHandle`, lines 197 to 202; `x` is what `recover()`
returns: the value of the panic in flight, if there is one. -/
def finishHandle (x : Option PanicValue) (w : ResponseWriter) : ResponseWriter :=
  match x with
  | some x => errorResponse 500 (castToString x) w
  | none => w

/-- The request `req` handed to `client.Do`: method, URL, the `Header.Set`
calls in order, and the body. -/
structure ProviderCall where
  method : String
  url : String
  headerSets : List (String × String)
  body : Json

/-- What `client.Do` does with a request: a reply (the stream of its body, and
the panic its `Close` raises, if any), an error, or a panic. -/
inductive TransportOutcome where
  | reply (body : BodyRead) (closeFault : Option PanicValue)
  | err (msg : String)
  | fault (x : PanicValue)

/-- The inbound request: the stream of `r.Body` and the panic its `Close`
raises, if any. -/
structure Request where
  body : BodyRead
  closeFault : Option PanicValue

/-- The state in which the body of `createPayment` stops, by return or by
panic: the writer, the provider call made, whether `resp.Body.Close()` was
deferred (and the panic it raises), and the panic in flight. -/
structure Exec where
  w : ResponseWriter
  outbound : Option ProviderCall
  respClose : Option (Option PanicValue)
  panicking : Option PanicValue

/-- The outcome of one run of the handler: the writer, the provider call made,
and the panic that left the handler. -/
structure Result where
  w : ResponseWriter
  outbound : Option ProviderCall
  escaped : Option PanicValue

/-- The validation of lines 124 to 137: the message of the first check that
fails. -/
def validate (body : Body) : Option String :=
  if body.invoice ≤ 0 then
    some "invalid or missing invoice number"
  else if body.amount.leZero then
    some "invalid or missing amount"
  else if body.currency ≠ "USD" ∧ body.currency ≠ "GBP" ∧ body.currency ≠ "RUB" then
    some "invalid or missing currency, supported USD, GBP, RUB"
  else none

/-- The composite literal `query` of lines 142 to 153. -/
def buildQuery (locale : String) (body : Body) : PaymentRequest :=
  let description := "Invoice " ++ Itoa body.invoice
  { Amount := { Value := body.amount, Currency := body.currency },
    Confirmation := { Type_ := "embedded", Locale := locale, ConfirmationToken := "" },
    Capture := true,
    Description := description }

/-- The request of lines 161 to 164. -/
def buildCall (cfg : Config) (jsonQuery : Json) : ProviderCall :=
  { method := "POST",
    url := "https://api.yookassa.ru/v3/payments",
    headerSets := [(cfg.shopID, cfg.secretKey), ("Idempotence-Key", cfg.idempotenceKey),
                   ("Content-Type", "application/json")],
    body := jsonQuery }

/-- Lines 181 to 186: the success envelope is serialised (an error of
`json.Marshal` is dropped, leaving no bytes), status 200 is sent and the bytes
are written. -/
def writeSuccess (presponse : PaymentResponse) (w : ResponseWriter) : ResponseWriter :=
  let bytedata : List Chunk :=
    match marshalPaymentResponse presponse with
    | .error _ => []
    | .ok result =>
      let response : List (String × Json) := []
      let response := assocSet response "status" (Json.str "success")
      let response := assocSet response "result" result
      [.json (marshalMap response)]
  (w.WriteHeader 200).Write bytedata

/-- Lines 124 to 186: the handler from the decoded `body` on. -/
def relay (cfg : Config) (transport : ProviderCall → TransportOutcome) (body : Body)
    (w : ResponseWriter) : Exec :=
  match validate body with
  | some msg => ⟨errorResponse 400 msg w, none, none, none⟩
  | none =>
    let query := buildQuery cfg.locale body
    match marshalPaymentRequest query with
    | .error e => ⟨errorResponse 400 e w, none, none, none⟩
    | .ok jsonQuery =>
      let req := buildCall cfg jsonQuery
      match transport req with
      | .fault x => ⟨w, some req, none, some x⟩
      | .err e => ⟨errorResponse 400 e w, some req, none, none⟩
      | .reply respBody closeFault =>
        match decodeNonPointer respBody PaymentResponse.zero with
        | .fault x => ⟨w, some req, some closeFault, some x⟩
        | .err e => ⟨errorResponse 400 e w, some req, some closeFault, none⟩
        | .ok presponse => ⟨writeSuccess presponse w, some req, some closeFault, none⟩

/-- Lines 108 to 186: the body of `createPayment`, given the outcome of the
decoding of line 118. -/
def createPaymentBody (cfg : Config) (transport : ProviderCall → TransportOutcome)
    (decoded : Outcome Body) (w : ResponseWriter) : Exec :=
  let w := w.setHeader "Content-Type" "application/json"
  let w := w.setHeader "Access-Control-Allow-Origin" "*"
  match decoded with
  | .fault x => ⟨w, none, none, some x⟩
  | .err e => ⟨errorResponse 400 e w, none, none, none⟩
  | .ok body => relay cfg transport body w

/-- The deferred calls, last registered first: `resp.Body.Close()` (a panic it
raises replaces the one in flight), `finishHandle(&w)`, which recovers the
panic in flight, and `r.Body.Close()`, whose panic nothing recovers. -/
def runDeferred (e : Exec) (reqClose : Option PanicValue) : Result :=
  let inFlight : Option PanicValue :=
    match e.respClose with
    | some (some y) => some y
    | _ => e.panicking
  let w := finishHandle inFlight e.w
  { w := w, outbound := e.outbound, escaped := reqClose }

/-- The handler from the outcome of the decoding of line 118 on, deferred
calls included. -/
def createPaymentFrom (cfg : Config) (transport : ProviderCall → TransportOutcome)
    (decoded : Outcome Body) (reqClose : Option PanicValue) : Result :=
  runDeferred (createPaymentBody cfg transport decoded ResponseWriter.fresh) reqClose

/-- The handler `createPayment`, lines 105 to 187. -/
def createPayment (cfg : Config) (transport : ProviderCall → TransportOutcome)
    (r : Request) : Result :=
  createPaymentFrom cfg transport (decodeBody r.body Body.zero) r.closeFault

/-- The failure envelope as serialised by `errorResponse`: an object with the
members `error` and `status` (a Go map is written with its keys sorted). -/
def failureEnvelope (error : String) : Json :=
  .obj [("error", .str error), ("status", .str "failure")]

/-! ## Sample data -/

/-- A configuration as `init` may load it. -/
def sampleConfig : Config :=
  { shopID := "shop-1", secretKey := "secret", idempotenceKey := "key-1", locale := "ru_RU" }

/-- The inbound body `{"invoice": 42, "amount": 19.99, "currency": "USD"}`. -/
def sampleJson : Json :=
  .obj [("invoice", .num 42), ("amount", .num (1999 / 100)), ("currency", .str "USD")]

/-- A request carrying `sampleJson` whose body closes normally. -/
def sampleRequest : Request := { body := .value sampleJson, closeFault := none }

/-- The struct `body` with invoice 42, amount 19.99 and currency USD. -/
def sampleBody : Body := { invoice := 42, amount := .finite (1999 / 100), currency := "USD" }

/-- A well formed payment object as the provider returns it. -/
def sampleProviderJson : Json :=
  .obj [("id", .str "22e12f66-000f-5000-8000-18db351245c7"), ("status", .str "pending"),
        ("paid", .bool false),
        ("amount", .obj [("value", .str "19.99"), ("currency", .str "USD")]),
        ("confirmation", .obj [("type", .str "embedded"),
                               ("confirmation_token", .str "ct-22e12f66")]),
        ("created_at", .str "2018-07-18T10:51:18.139Z"), ("description", .str "Invoice 42"),
        ("metadata", .obj []),
        ("recipient", .obj [("account_id", .str "100500"), ("gateway_id", .str "100700")]),
        ("refundable", .bool false), ("test", .bool false)]

/-- A provider that answers every call with `sampleProviderJson`. -/
def sampleTransport : ProviderCall → TransportOutcome :=
  fun _ => .reply (.value sampleProviderJson) none

/-- A provider whose reply is not JSON. -/
def malformedTransport : ProviderCall → TransportOutcome :=
  fun _ => .reply (.failure "invalid character '<' looking for beginning of value") none

/-- A transport call that panics. -/
def faultyTransport : ProviderCall → TransportOutcome :=
  fun _ => .fault (.error "runtime error: invalid memory address or nil pointer dereference")

/-- A request whose body is not JSON: the decoder stops at the first byte. -/
def malformedRequest : Request :=
  { body := .failure "invalid character 'i' looking for beginning of value",
    closeFault := none }

/-- A request whose body panics with a runtime error while it is read. -/
def faultyRequest : Request :=
  { body := .fault (.error "runtime error: index out of range [3] with length 3"),
    closeFault := none }

/-- A request carrying `sampleJson` whose body panics when it is closed. -/
def closeFaultRequest : Request :=
  { body := .value sampleJson, closeFault := some (.str "close of request body failed") }

/-! ## Stages that return an error -/

/-- A stage of `createPayment` returns the error `e`, given the outcome of the
inbound decoding: the inbound decoding itself, the serialisation of the
provider request, the transport call, or the decoding of the provider's
reply. -/
inductive StageError (cfg : Config) (transport : ProviderCall → TransportOutcome) :
    Outcome Body → String → Prop where
  | inbound (e : String) : StageError cfg transport (.err e) e
  | serialise (b : Body) (e : String) :
      validate b = none →
      marshalPaymentRequest (buildQuery cfg.locale b) = .error e →
      StageError cfg transport (.ok b) e
  | transport (b : Body) (j : Json) (e : String) :
      validate b = none →
      marshalPaymentRequest (buildQuery cfg.locale b) = .ok j →
      transport (buildCall cfg j) = .err e →
      StageError cfg transport (.ok b) e
  | providerBody (b : Body) (j : Json) (respBody : BodyRead) (cf : Option PanicValue)
      (e : String) :
      validate b = none →
      marshalPaymentRequest (buildQuery cfg.locale b) = .ok j →
      transport (buildCall cfg j) = .reply respBody cf →
      decodeNonPointer respBody PaymentResponse.zero = .err e →
      StageError cfg transport (.ok b) e

/-! ## Auxiliary facts -/

/-- The writer when the handler has set its two headers (lines 109 and 110). -/
def preparedWriter : ResponseWriter :=
  (ResponseWriter.fresh.setHeader "Content-Type" "application/json").setHeader
    "Access-Control-Allow-Origin" "*"

/-- The headers that go out with a reply written by `errorResponse` on the
prepared writer. -/
def errorHeaders : List (String × String) :=
  [("Content-Type", "text/plain; charset=utf-8"), ("Access-Control-Allow-Origin", "*"),
   ("X-Content-Type-Options", "nosniff")]

theorem marshalStringMap_failure (error : String) :
    marshalStringMap (assocSet (assocSet [] "status" "failure") "error" error)
      = failureEnvelope error := rfl

theorem errorResponse_prepared (code : Nat) (error : String) :
    errorResponse code error preparedWriter =
      { header := errorHeaders, status := some code, sent := errorHeaders,
        body := [.json (failureEnvelope error), .newline] } := rfl

theorem errorResponse_sent (code : Nat) (error : String) (w : ResponseWriter) (c : Nat)
    (h : w.status = some c) :
    (errorResponse code error w).status = some c ∧
    (errorResponse code error w).sent = w.sent ∧
    (errorResponse code error w).body = w.body ++ [.json (failureEnvelope error), .newline] := by
  simp [errorResponse, httpError, ResponseWriter.Write, ResponseWriter.WriteHeader,
    ResponseWriter.setHeader, ResponseWriter.delHeader, h, marshalStringMap_failure]

theorem gtZero_not_leZero (a : Float64) (h : a.gtZero = true) : a.leZero = false := by
  cases a <;> simp_all [Float64.gtZero, Float64.leZero]

theorem createPaymentBody_ok (cfg : Config) (transport : ProviderCall → TransportOutcome)
    (b : Body) :
    createPaymentBody cfg transport (.ok b) ResponseWriter.fresh
      = relay cfg transport b preparedWriter := rfl

theorem relay_rejected (cfg : Config) (transport : ProviderCall → TransportOutcome)
    (b : Body) (msg : String) (h : validate b = some msg) (rc : Option PanicValue) :
    (createPaymentFrom cfg transport (.ok b) rc).w =
      { header := errorHeaders, status := some 400, sent := errorHeaders,
        body := [.json (failureEnvelope msg), .newline] } ∧
    (createPaymentFrom cfg transport (.ok b) rc).outbound = none := by
  simp [createPaymentFrom, createPaymentBody_ok, relay, h, runDeferred, finishHandle,
    errorResponse_prepared]

/-! ## Validation -/

/-- C1: a request whose body decodes to an invoice that is not positive is
answered with status 400 and the failure envelope with the message "invalid or
missing invoice number", whatever the amount and the currency are; no provider
call is made. -/
theorem createPayment_rejects_invoice (cfg : Config)
    (transport : ProviderCall → TransportOutcome) (rc : Option PanicValue) (b : Body)
    (h : b.invoice ≤ 0) :
    (createPaymentFrom cfg transport (.ok b) rc).w.status = some 400 ∧
    (createPaymentFrom cfg transport (.ok b) rc).w.body =
      [.json (.obj [("error", .str "invalid or missing invoice number"),
                    ("status", .str "failure")]), .newline] ∧
    (createPaymentFrom cfg transport (.ok b) rc).outbound = none := by
  have hv : validate b = some "invalid or missing invoice number" := by
    simp [validate, h]
  have hr := relay_rejected cfg transport b _ hv rc
  simp [hr.1, hr.2, failureEnvelope]

/-- Witness of C1: the zero invoice to which every well formed body decodes. -/
theorem createPayment_rejects_invoice_witness :
    (createPayment sampleConfig sampleTransport sampleRequest).w.status = some 400 ∧
    (createPayment sampleConfig sampleTransport sampleRequest).w.body =
      [.json (.obj [("error", .str "invalid or missing invoice number"),
                    ("status", .str "failure")]), .newline] ∧
    (createPayment sampleConfig sampleTransport sampleRequest).outbound = none :=
  createPayment_rejects_invoice sampleConfig sampleTransport none Body.zero (by decide)

/-- C2: a request whose body decodes to a positive invoice and an amount that
is not positive is answered with status 400 and the failure envelope with the
message "invalid or missing amount", whatever the currency is. -/
theorem createPayment_rejects_amount (cfg : Config)
    (transport : ProviderCall → TransportOutcome) (rc : Option PanicValue) (b : Body)
    (hInvoice : 0 < b.invoice) (hAmount : b.amount.leZero = true) :
    (createPaymentFrom cfg transport (.ok b) rc).w.status = some 400 ∧
    (createPaymentFrom cfg transport (.ok b) rc).w.body =
      [.json (.obj [("error", .str "invalid or missing amount"),
                    ("status", .str "failure")]), .newline] ∧
    (createPaymentFrom cfg transport (.ok b) rc).outbound = none := by
  have hv : validate b = some "invalid or missing amount" := by
    simp [validate, hInvoice, hAmount]
  have hr := relay_rejected cfg transport b _ hv rc
  simp [hr.1, hr.2, failureEnvelope]

/-- Witness of C2: invoice 7 with amount 0 and currency USD. -/
theorem createPayment_rejects_amount_witness :
    (createPaymentFrom sampleConfig sampleTransport
      (.ok { invoice := 7, amount := .finite 0, currency := "USD" }) none).w.status = some 400 ∧
    (createPaymentFrom sampleConfig sampleTransport
      (.ok { invoice := 7, amount := .finite 0, currency := "USD" }) none).w.body =
      [.json (.obj [("error", .str "invalid or missing amount"),
                    ("status", .str "failure")]), .newline] ∧
    (createPaymentFrom sampleConfig sampleTransport
      (.ok { invoice := 7, amount := .finite 0, currency := "USD" }) none).outbound = none :=
  createPayment_rejects_amount sampleConfig sampleTransport none
    { invoice := 7, amount := .finite 0, currency := "USD" } (by decide)
    (by simp [Float64.leZero])

/-- C3: a request whose body decodes to a positive invoice, a positive amount
and a currency that is none of USD, GBP and RUB (the empty string and "usd"
included) is answered with status 400 and the failure envelope with the message
"invalid or missing currency, supported USD, GBP, RUB". -/
theorem createPayment_rejects_currency (cfg : Config)
    (transport : ProviderCall → TransportOutcome) (rc : Option PanicValue) (b : Body)
    (hInvoice : 0 < b.invoice) (hAmount : b.amount.gtZero = true)
    (hCurrency : b.currency ≠ "USD" ∧ b.currency ≠ "GBP" ∧ b.currency ≠ "RUB") :
    (createPaymentFrom cfg transport (.ok b) rc).w.status = some 400 ∧
    (createPaymentFrom cfg transport (.ok b) rc).w.body =
      [.json (.obj [("error", .str "invalid or missing currency, supported USD, GBP, RUB"),
                    ("status", .str "failure")]), .newline] ∧
    (createPaymentFrom cfg transport (.ok b) rc).outbound = none := by
  have hv : validate b = some "invalid or missing currency, supported USD, GBP, RUB" := by
    simp [validate, hInvoice, gtZero_not_leZero b.amount hAmount, hCurrency]
  have hr := relay_rejected cfg transport b _ hv rc
  simp [hr.1, hr.2, failureEnvelope]

/-- Witness of C3: the lower case currency "usd". -/
theorem createPayment_rejects_currency_witness :
    (createPaymentFrom sampleConfig sampleTransport
      (.ok { invoice := 42, amount := .finite 5, currency := "usd" }) none).w.status = some 400 ∧
    (createPaymentFrom sampleConfig sampleTransport
      (.ok { invoice := 42, amount := .finite 5, currency := "usd" }) none).w.body =
      [.json (.obj [("error", .str "invalid or missing currency, supported USD, GBP, RUB"),
                    ("status", .str "failure")]), .newline] ∧
    (createPaymentFrom sampleConfig sampleTransport
      (.ok { invoice := 42, amount := .finite 5, currency := "usd" }) none).outbound = none :=
  createPayment_rejects_currency sampleConfig sampleTransport none
    { invoice := 42, amount := .finite 5, currency := "usd" } (by decide)
    (by simp [Float64.gtZero]) (by decide)

/-! ## The provider request -/

theorem relay_outbound (cfg : Config) (transport : ProviderCall → TransportOutcome)
    (b : Body) (w : ResponseWriter) (h : validate b = none) :
    (relay cfg transport b w).outbound =
      match marshalPaymentRequest (buildQuery cfg.locale b) with
      | .ok j => some (buildCall cfg j)
      | .error _ => none := by
  unfold relay
  simp only [h]
  cases hm : marshalPaymentRequest (buildQuery cfg.locale b) with
  | error e => rfl
  | ok j =>
    simp only []
    cases ht : transport (buildCall cfg j) with
    | fault x => rfl
    | err e => rfl
    | reply rb cf =>
      simp only []
      cases hd : decodeNonPointer rb PaymentResponse.zero <;> rfl

/-- C4: for a decoded body with a positive invoice, a positive amount and a
currency among USD, GBP and RUB, no validation check fires, the provider
request built has the description "Invoice " followed by the decimal string of
the invoice, the amount and currency of the body, capture set, confirmation
type "embedded" and the configured locale, and the provider is called with its
serialisation (whenever the amount can be serialised). -/
theorem createPayment_builds_query (cfg : Config)
    (transport : ProviderCall → TransportOutcome) (rc : Option PanicValue) (b : Body)
    (hInvoice : 0 < b.invoice) (hAmount : b.amount.gtZero = true)
    (hCurrency : b.currency = "USD" ∨ b.currency = "GBP" ∨ b.currency = "RUB") :
    validate b = none ∧
    buildQuery cfg.locale b =
      { Amount := { Value := b.amount, Currency := b.currency },
        Confirmation := { Type_ := "embedded", Locale := cfg.locale, ConfirmationToken := "" },
        Capture := true,
        Description := "Invoice " ++ Itoa b.invoice } ∧
    (createPaymentFrom cfg transport (.ok b) rc).outbound =
      match marshalPaymentRequest (buildQuery cfg.locale b) with
      | .ok j => some (buildCall cfg j)
      | .error _ => none := by
  have hv : validate b = none := by
    have hle := gtZero_not_leZero b.amount hAmount
    rcases hCurrency with hc | hc | hc <;> simp [validate, hInvoice, hle, hc]
  refine ⟨hv, rfl, ?_⟩
  simp only [createPaymentFrom, runDeferred, createPaymentBody_ok]
  exact relay_outbound cfg transport b preparedWriter hv

/-- Witness of C4: invoice 42, amount 19.99 and currency USD give the
description "Invoice 42". -/
theorem createPayment_builds_query_witness :
    validate sampleBody = none ∧
    buildQuery sampleConfig.locale sampleBody =
      { Amount := { Value := .finite (1999 / 100), Currency := "USD" },
        Confirmation := { Type_ := "embedded", Locale := "ru_RU", ConfirmationToken := "" },
        Capture := true,
        Description := "Invoice 42" } ∧
    (createPaymentFrom sampleConfig sampleTransport (.ok sampleBody) none).outbound =
      some (buildCall sampleConfig
        (.obj [("amount", .obj [("amount", .num (1999 / 100)), ("currency", .str "USD")]),
               ("confirmation", .obj [("type", .str "embedded"), ("locale", .str "ru_RU"),
                                      ("confirmation_token", .str "")]),
               ("capture", .bool true), ("description", .str "Invoice 42")])) :=
  createPayment_builds_query sampleConfig sampleTransport none sampleBody (by decide)
    (by simp [sampleBody, Float64.gtZero]) (by decide)

/-- C10: whenever the handler calls the provider, the body it sends is an
object with exactly the members "amount", "confirmation", "capture" and
"description", where "amount" is an object with the members "amount" (the
numeric value) and "currency", and "confirmation" an object with the members
"type", "locale" and "confirmation_token", the last being the empty string. -/
theorem provider_body_shape (cfg : Config) (transport : ProviderCall → TransportOutcome)
    (decoded : Outcome Body) (rc : Option PanicValue) (call : ProviderCall)
    (h : (createPaymentFrom cfg transport decoded rc).outbound = some call) :
    ∃ b q, decoded = .ok b ∧ b.amount = .finite q ∧
      call.body =
        .obj [("amount", .obj [("amount", .num q), ("currency", .str b.currency)]),
              ("confirmation", .obj [("type", .str "embedded"), ("locale", .str cfg.locale),
                                     ("confirmation_token", .str "")]),
              ("capture", .bool true),
              ("description", .str ("Invoice " ++ Itoa b.invoice))] := by
  cases decoded with
  | fault x => simp [createPaymentFrom, createPaymentBody, runDeferred] at h
  | err e => simp [createPaymentFrom, createPaymentBody, runDeferred] at h
  | ok b =>
    simp only [createPaymentFrom, runDeferred, createPaymentBody_ok] at h
    cases hv : validate b with
    | some msg => simp [relay, hv] at h
    | none =>
      rw [relay_outbound cfg transport b preparedWriter hv] at h
      cases ha : b.amount with
      | finite q =>
        refine ⟨b, q, rfl, ha, ?_⟩
        simp [marshalPaymentRequest, marshalAmount, marshalFloat, buildQuery, ha] at h
        rw [← h]
        simp [buildCall, marshalConfirmation]
      | posInf =>
        simp [marshalPaymentRequest, marshalAmount, marshalFloat, buildQuery, ha] at h
      | negInf =>
        simp [marshalPaymentRequest, marshalAmount, marshalFloat, buildQuery, ha] at h
      | nan =>
        simp [marshalPaymentRequest, marshalAmount, marshalFloat, buildQuery, ha] at h

theorem validate_sampleBody : validate sampleBody = none := by
  simp [validate, sampleBody, Float64.leZero]

theorem sample_outbound :
    (createPaymentFrom sampleConfig sampleTransport (.ok sampleBody) none).outbound =
      some (buildCall sampleConfig
        (.obj [("amount", .obj [("amount", .num (1999 / 100)), ("currency", .str "USD")]),
               ("confirmation", .obj [("type", .str "embedded"), ("locale", .str "ru_RU"),
                                      ("confirmation_token", .str "")]),
               ("capture", .bool true), ("description", .str "Invoice 42")])) := by
  simp only [createPaymentFrom, runDeferred, createPaymentBody_ok]
  rw [relay_outbound sampleConfig sampleTransport sampleBody preparedWriter validate_sampleBody]
  rfl

/-- Witness of C10: the call made for invoice 42, amount 19.99, currency USD. -/
theorem provider_body_shape_witness :
    ∃ b q, (Outcome.ok sampleBody) = .ok b ∧ b.amount = .finite q ∧
      (buildCall sampleConfig
        (.obj [("amount", .obj [("amount", .num (1999 / 100)), ("currency", .str "USD")]),
               ("confirmation", .obj [("type", .str "embedded"), ("locale", .str "ru_RU"),
                                      ("confirmation_token", .str "")]),
               ("capture", .bool true), ("description", .str "Invoice 42")])).body =
        .obj [("amount", .obj [("amount", .num q), ("currency", .str b.currency)]),
              ("confirmation", .obj [("type", .str "embedded"),
                                     ("locale", .str sampleConfig.locale),
                                     ("confirmation_token", .str "")]),
              ("capture", .bool true),
              ("description", .str ("Invoice " ++ Itoa b.invoice))] :=
  provider_body_shape sampleConfig sampleTransport (.ok sampleBody) none _ sample_outbound

/-! ## The shape of every run -/

theorem decodeNonPointer_not_ok (src : BodyRead) (p q : PaymentResponse) :
    decodeNonPointer src p ≠ .ok q := by
  cases src <;> simp [decodeNonPointer]

/-- The body of the handler stops either in a panic, nothing written, or with a
reply of status 400 written by `errorResponse`. -/
theorem relay_cases (cfg : Config) (transport : ProviderCall → TransportOutcome) (b : Body) :
    (∃ x, (relay cfg transport b preparedWriter).panicking = some x ∧
          (relay cfg transport b preparedWriter).w = preparedWriter) ∨
    (∃ msg, (relay cfg transport b preparedWriter).panicking = none ∧
          (relay cfg transport b preparedWriter).w = errorResponse 400 msg preparedWriter) := by
  unfold relay
  cases hv : validate b with
  | some msg => exact Or.inr ⟨msg, rfl, rfl⟩
  | none =>
    simp only []
    cases hm : marshalPaymentRequest (buildQuery cfg.locale b) with
    | error e => exact Or.inr ⟨e, rfl, rfl⟩
    | ok j =>
      simp only []
      cases ht : transport (buildCall cfg j) with
      | fault x => exact Or.inl ⟨x, rfl, rfl⟩
      | err e => exact Or.inr ⟨e, rfl, rfl⟩
      | reply rb cf =>
        simp only []
        cases hd : decodeNonPointer rb PaymentResponse.zero with
        | fault x => exact Or.inl ⟨x, rfl, rfl⟩
        | err e => exact Or.inr ⟨e, rfl, rfl⟩
        | ok q => exact absurd hd (decodeNonPointer_not_ok rb _ q)

theorem body_cases (cfg : Config) (transport : ProviderCall → TransportOutcome)
    (decoded : Outcome Body) :
    (∃ x, (createPaymentBody cfg transport decoded ResponseWriter.fresh).panicking = some x ∧
          (createPaymentBody cfg transport decoded ResponseWriter.fresh).w = preparedWriter) ∨
    (∃ msg, (createPaymentBody cfg transport decoded ResponseWriter.fresh).panicking = none ∧
          (createPaymentBody cfg transport decoded ResponseWriter.fresh).w
            = errorResponse 400 msg preparedWriter) := by
  cases decoded with
  | fault x => exact Or.inl ⟨x, rfl, rfl⟩
  | err e => exact Or.inr ⟨e, rfl, rfl⟩
  | ok b => rw [createPaymentBody_ok]; exact relay_cases cfg transport b

/-- Every run ends with status 400 or 500, and the headers that went out are
those left by `http.Error`. -/
theorem run_cases (cfg : Config) (transport : ProviderCall → TransportOutcome)
    (decoded : Outcome Body) (rc : Option PanicValue) :
    ((createPaymentFrom cfg transport decoded rc).w.status = some 400 ∨
     (createPaymentFrom cfg transport decoded rc).w.status = some 500) ∧
    (createPaymentFrom cfg transport decoded rc).w.sent = errorHeaders := by
  unfold createPaymentFrom runDeferred
  rcases body_cases cfg transport decoded with ⟨x, hp, hw⟩ | ⟨msg, hp, hw⟩
  · cases hc : (createPaymentBody cfg transport decoded ResponseWriter.fresh).respClose with
    | none => simp [hp, hw, finishHandle, errorResponse_prepared]
    | some cf =>
      cases cf <;> simp [hp, hw, finishHandle, errorResponse_prepared]
  · cases hc : (createPaymentBody cfg transport decoded ResponseWriter.fresh).respClose with
    | none => simp [hp, hw, finishHandle, errorResponse_prepared]
    | some cf =>
      cases cf with
      | none => simp [hp, hw, finishHandle, errorResponse_prepared]
      | some y =>
        have hs := errorResponse_sent 500 (castToString y)
          (errorResponse 400 msg preparedWriter) 400 (by rw [errorResponse_prepared])
        simp only [hw, finishHandle]
        exact ⟨Or.inl hs.1, by rw [hs.2.1, errorResponse_prepared]⟩

/-! ## Decoding of the inbound body -/

theorem exportedFields_bodyFields : exportedFields bodyFields = [] := rfl

theorem decodeMembers_bodyFields (members : List (String × Json)) (b : Body) :
    decodeMembers bodyFields b members = .ok b := by
  induction members with
  | nil => rfl
  | cons kv rest ih =>
    obtain ⟨k, v⟩ := kv
    simp [decodeMembers, exportedFields_bodyFields, findField, ih]

/-- C5, as the code behaves: no field of the struct `body` is exported, so the
decoder stores no member of an inbound object; the body
`{"invoice": 42, "amount": 19.99, "currency": "USD"}` decodes to invoice 0,
amount 0 and the empty currency, and the request is answered with status 400
and the message "invalid or missing invoice number" instead of passing the
validation. -/
theorem decodeBody_stores_nothing :
    (∀ (members : List (String × Json)) (b : Body),
      decodeBody (.value (.obj members)) b = .ok b) ∧
    decodeBody sampleRequest.body Body.zero
      = .ok { invoice := 0, amount := .finite 0, currency := "" } ∧
    validate { invoice := 0, amount := .finite 0, currency := "" }
      = some "invalid or missing invoice number" ∧
    (∀ (cfg : Config) (transport : ProviderCall → TransportOutcome),
      (createPayment cfg transport sampleRequest).w.status = some 400 ∧
      (createPayment cfg transport sampleRequest).w.body =
        [.json (.obj [("error", .str "invalid or missing invoice number"),
                      ("status", .str "failure")]), .newline] ∧
      (createPayment cfg transport sampleRequest).outbound = none) := by
  refine ⟨?_, ?_, ?_, ?_⟩
  · intro members b
    simp [decodeBody, decodeMembers_bodyFields]
  · rfl
  · rfl
  · intro cfg transport
    exact ⟨rfl, rfl, rfl⟩

/-! ## The reply of the provider -/

/-- C6, as the code behaves: no run of the handler ends with status 200.  For
the valid body with invoice 42, amount 19.99 and currency USD and a provider
that replies with a well formed payment object, the decoding into a value that
is not a pointer fails, and the request is answered with status 400 and the
text of the `InvalidUnmarshalError`; nothing of the provider's reply is passed
on. -/
theorem createPayment_never_succeeds :
    (∀ (cfg : Config) (transport : ProviderCall → TransportOutcome)
        (decoded : Outcome Body) (rc : Option PanicValue),
      (createPaymentFrom cfg transport decoded rc).w.status ≠ some 200) ∧
    (createPaymentFrom sampleConfig sampleTransport (.ok sampleBody) none).w.status
      = some 400 ∧
    (createPaymentFrom sampleConfig sampleTransport (.ok sampleBody) none).w.body =
      [.json (.obj [("error",
          .str "json: Unmarshal(non-pointer yookassa_widget.PaymentResponse)"),
        ("status", .str "failure")]), .newline] ∧
    (createPayment sampleConfig sampleTransport sampleRequest).w.status = some 400 := by
  refine ⟨?_, ?_, ?_, rfl⟩
  · intro cfg transport decoded rc h
    rcases (run_cases cfg transport decoded rc).1 with h4 | h5
    · rw [h4] at h; cases h
    · rw [h5] at h; cases h
  · simp only [createPaymentFrom, createPaymentBody_ok, relay, validate_sampleBody]
    rfl
  · simp only [createPaymentFrom, createPaymentBody_ok, relay, validate_sampleBody]
    rfl

/-! ## Response headers -/

/-- C7, as the code behaves: every reply carries
`Access-Control-Allow-Origin: *`, but its `Content-Type` is the
`text/plain; charset=utf-8` set by `http.Error`, not `application/json`; such
is the reply to the body `{"invoice": 42, "amount": 19.99, "currency": "USD"}`. -/
theorem createPayment_content_type :
    (∀ (cfg : Config) (transport : ProviderCall → TransportOutcome)
        (decoded : Outcome Body) (rc : Option PanicValue),
      assocGet (createPaymentFrom cfg transport decoded rc).w.sent "Content-Type"
        = some "text/plain; charset=utf-8" ∧
      assocGet (createPaymentFrom cfg transport decoded rc).w.sent
        "Access-Control-Allow-Origin" = some "*") ∧
    assocGet (createPayment sampleConfig sampleTransport sampleRequest).w.sent "Content-Type"
      = some "text/plain; charset=utf-8" ∧
    assocGet (createPayment sampleConfig sampleTransport sampleRequest).w.sent "Content-Type"
      ≠ some "application/json" := by
  refine ⟨?_, rfl, by decide⟩
  intro cfg transport decoded rc
  rw [(run_cases cfg transport decoded rc).2]
  exact ⟨rfl, rfl⟩

/-! ## What the inbound decoding can yield -/

/-- The decoding of line 118 leaves the zero value of `body` as it is. -/
theorem decodeBody_zero (src : BodyRead) (b : Body)
    (h : decodeBody src Body.zero = .ok b) : b = Body.zero := by
  cases src with
  | fault x => simp [decodeBody] at h
  | failure msg => simp [decodeBody] at h
  | value j =>
    cases j with
    | null => simp [decodeBody] at h; exact h.symm
    | obj members =>
      simp [decodeBody, decodeMembers_bodyFields] at h
      exact h.symm
    | bool v => simp [decodeBody] at h
    | num q => simp [decodeBody] at h
    | str t => simp [decodeBody] at h
    | arr items => simp [decodeBody] at h

theorem validate_zero : validate Body.zero = some "invalid or missing invoice number" := rfl

/-- On a request the handler never gets as far as the provider: the deferred
`resp.Body.Close()` is not registered. -/
theorem request_respClose (cfg : Config) (transport : ProviderCall → TransportOutcome)
    (r : Request) :
    (createPaymentBody cfg transport (decodeBody r.body Body.zero)
      ResponseWriter.fresh).respClose = none := by
  cases hd : decodeBody r.body Body.zero with
  | fault x => rfl
  | err e => rfl
  | ok b =>
    rw [decodeBody_zero r.body b hd, createPaymentBody_ok]
    simp only [relay, validate_zero]

/-! ## Errors of the stages -/

theorem stage_error_body (cfg : Config) (transport : ProviderCall → TransportOutcome)
    (decoded : Outcome Body) (e : String) (h : StageError cfg transport decoded e) :
    ∃ ob cl, createPaymentBody cfg transport decoded ResponseWriter.fresh
      = ⟨errorResponse 400 e preparedWriter, ob, cl, none⟩ := by
  cases h with
  | inbound => exact ⟨none, none, rfl⟩
  | serialise b _ hv hm =>
    refine ⟨none, none, ?_⟩
    rw [createPaymentBody_ok]
    simp only [relay, hv, hm]
  | transport b j _ hv hm ht =>
    refine ⟨some (buildCall cfg j), none, ?_⟩
    rw [createPaymentBody_ok]
    simp only [relay, hv, hm, ht]
  | providerBody b j rb cf _ hv hm ht hd =>
    refine ⟨some (buildCall cfg j), some cf, ?_⟩
    rw [createPaymentBody_ok]
    simp only [relay, hv, hm, ht, hd]

/-- From any outcome of the inbound decoding: a stage error `e` gives status
400 and a reply that starts with the failure envelope of `e`; the envelope is
the whole reply when no `Close` of a provider reply panics. -/
theorem stage_error_reply (cfg : Config) (transport : ProviderCall → TransportOutcome)
    (decoded : Outcome Body) (rc : Option PanicValue) (e : String)
    (h : StageError cfg transport decoded e) :
    (createPaymentFrom cfg transport decoded rc).w.status = some 400 ∧
    (∃ rest, (createPaymentFrom cfg transport decoded rc).w.body =
      .json (failureEnvelope e) :: .newline :: rest) ∧
    ((∀ y, (createPaymentBody cfg transport decoded ResponseWriter.fresh).respClose
        ≠ some (some y)) →
      (createPaymentFrom cfg transport decoded rc).w.body =
        [.json (failureEnvelope e), .newline]) := by
  obtain ⟨ob, cl, hb⟩ := stage_error_body cfg transport decoded e h
  simp only [createPaymentFrom, runDeferred, hb]
  match cl with
  | none => simp [finishHandle, errorResponse_prepared]
  | some none => simp [finishHandle, errorResponse_prepared]
  | some (some y) =>
    have hs := errorResponse_sent 500 (castToString y)
      (errorResponse 400 e preparedWriter) 400 (by rw [errorResponse_prepared])
    simp only [finishHandle]
    refine ⟨hs.1, ?_, ?_⟩
    · rw [hs.2.2, errorResponse_prepared]
      exact ⟨_, rfl⟩
    · intro hclose
      exact absurd rfl (hclose y)

/-- From a valid decoded body, a provider reply that is malformed JSON is
answered with status 400 and the text of the decoder's error. -/
theorem malformed_reply_rejected :
    (createPaymentFrom sampleConfig malformedTransport (.ok sampleBody) none).w.status
      = some 400 ∧
    (createPaymentFrom sampleConfig malformedTransport (.ok sampleBody) none).w.body =
      [.json (failureEnvelope "invalid character '<' looking for beginning of value"),
       .newline] := by
  have h := stage_error_reply sampleConfig malformedTransport (.ok sampleBody) none
    "invalid character '<' looking for beginning of value"
    (StageError.providerBody sampleBody _ _ none _ validate_sampleBody rfl rfl rfl)
  refine ⟨h.1, h.2.2 ?_⟩
  intro y
  simp only [createPaymentBody_ok, relay, validate_sampleBody]
  intro hy
  cases hy

/-- From a valid decoded body, a transport call that panics is answered with
status 500 and the text of the runtime error. -/
theorem transport_panic_recovered :
    (createPaymentFrom sampleConfig faultyTransport (.ok sampleBody) none).w.status
      = some 500 ∧
    (createPaymentFrom sampleConfig faultyTransport (.ok sampleBody) none).w.body =
      [.json (failureEnvelope
        "runtime error: invalid memory address or nil pointer dereference"), .newline] := by
  simp only [createPaymentFrom, createPaymentBody_ok, relay, validate_sampleBody]
  exact ⟨rfl, rfl⟩

/-- C8: for every request, whenever a stage of the handler returns an error
`e` (the decoding of the inbound body, the serialisation of the provider
request, the transport call, or the decoding of the provider's reply), the
request is answered with status 400, never 200, and the reply is the failure
envelope carrying the text of `e`. -/
theorem createPayment_stage_error (cfg : Config)
    (transport : ProviderCall → TransportOutcome) (r : Request) (e : String)
    (h : StageError cfg transport (decodeBody r.body Body.zero) e) :
    (createPayment cfg transport r).w.status = some 400 ∧
    (createPayment cfg transport r).w.status ≠ some 200 ∧
    (createPayment cfg transport r).w.body =
      [.json (.obj [("error", .str e), ("status", .str "failure")]), .newline] := by
  have hr := stage_error_reply cfg transport (decodeBody r.body Body.zero) r.closeFault e h
  have hc : ∀ y, (createPaymentBody cfg transport (decodeBody r.body Body.zero)
      ResponseWriter.fresh).respClose ≠ some (some y) := by
    intro y
    rw [request_respClose]
    exact fun hne => Option.noConfusion hne
  refine ⟨hr.1, ?_, hr.2.2 hc⟩
  show (createPaymentFrom cfg transport (decodeBody r.body Body.zero) r.closeFault).w.status
    ≠ some 200
  rw [hr.1]
  decide

/-- Witness of C8: a request whose body is not JSON; the decoding of line 118
returns the syntax error. -/
theorem createPayment_stage_error_witness :
    (createPayment sampleConfig sampleTransport malformedRequest).w.status = some 400 ∧
    (createPayment sampleConfig sampleTransport malformedRequest).w.status ≠ some 200 ∧
    (createPayment sampleConfig sampleTransport malformedRequest).w.body =
      [.json (.obj [("error", .str "invalid character 'i' looking for beginning of value"),
                    ("status", .str "failure")]), .newline] :=
  createPayment_stage_error sampleConfig sampleTransport malformedRequest
    "invalid character 'i' looking for beginning of value"
    (StageError.inbound "invalid character 'i' looking for beginning of value")

/-! ## Panics -/

/-- C9, refuted as stated: a panic raised by the deferred `r.Body.Close()`,
which runs after `finishHandle`, is not recovered; it leaves the handler, and
the reply keeps the status 400 it was written with. -/
theorem createPayment_close_fault_escapes :
    closeFaultRequest.closeFault = some (.str "close of request body failed") ∧
    (createPayment sampleConfig sampleTransport closeFaultRequest).escaped
      = some (.str "close of request body failed") ∧
    (createPayment sampleConfig sampleTransport closeFaultRequest).w.status = some 400 ∧
    ¬ ((createPayment sampleConfig sampleTransport closeFaultRequest).escaped = none ∧
       (createPayment sampleConfig sampleTransport closeFaultRequest).w.status = some 500) := by
  refine ⟨rfl, rfl, rfl, ?_⟩
  rintro ⟨h, _⟩
  cases h

/-- C9, amended: for every request, a panic with value `x` raised while the
body of the handler runs, that is before its deferred calls, is recovered by
the deferred `finishHandle`: the request is answered with status 500 and the
failure envelope carrying `cast.ToString(x)`, and when `r.Body.Close()` returns
normally nothing leaves the handler; when the body raises no panic
`finishHandle` writes nothing. -/
theorem finishHandle_recovers (cfg : Config) (transport : ProviderCall → TransportOutcome)
    (r : Request) :
    (∀ x, (createPaymentBody cfg transport (decodeBody r.body Body.zero)
        ResponseWriter.fresh).panicking = some x →
      (createPayment cfg transport r).w.status = some 500 ∧
      (createPayment cfg transport r).w.body =
        [.json (.obj [("error", .str (castToString x)), ("status", .str "failure")]),
         .newline] ∧
      (r.closeFault = none → (createPayment cfg transport r).escaped = none)) ∧
    ((createPaymentBody cfg transport (decodeBody r.body Body.zero)
        ResponseWriter.fresh).panicking = none →
      (createPayment cfg transport r).w
        = (createPaymentBody cfg transport (decodeBody r.body Body.zero)
            ResponseWriter.fresh).w) := by
  have hrc := request_respClose cfg transport r
  refine ⟨?_, ?_⟩
  · intro x hx
    rcases body_cases cfg transport (decodeBody r.body Body.zero) with
      ⟨x', hp, hw⟩ | ⟨msg, hp, _⟩
    · refine ⟨?_, ?_, fun hcf => hcf⟩
      · simp [createPayment, createPaymentFrom, runDeferred, hrc, hx, finishHandle, hw,
          errorResponse_prepared]
      · simp [createPayment, createPaymentFrom, runDeferred, hrc, hx, finishHandle, hw,
          errorResponse_prepared, failureEnvelope]
    · rw [hp] at hx; cases hx
  · intro hnone
    simp only [createPayment, createPaymentFrom, runDeferred, hrc, hnone, finishHandle]

/-- Witness of C9 (amended): a request whose body panics with a runtime error
while the decoder reads it. -/
theorem finishHandle_recovers_witness :
    (createPayment sampleConfig sampleTransport faultyRequest).w.status = some 500 ∧
    (createPayment sampleConfig sampleTransport faultyRequest).w.body =
      [.json (.obj [("error", .str "runtime error: index out of range [3] with length 3"),
                    ("status", .str "failure")]), .newline] ∧
    (faultyRequest.closeFault = none →
      (createPayment sampleConfig sampleTransport faultyRequest).escaped = none) :=
  (finishHandle_recovers sampleConfig sampleTransport faultyRequest).1
    (.error "runtime error: index out of range [3] with length 3") rfl

end YookassaWidget
